import Mathlib

/-!
# KPI engine of the particle-dashboard repository: a shallow embedding

This file embeds the hierarchical KPI computation implemented in
`src/processor.py` (functions `calculate_kpis`, `_calculate_daily_kpis`,
`_calculate_weekly_kpis`, `_calculate_monthly_kpis`, `_calculate_variation`)
and its duplicate in `streamlit_App/dashboard.py`, and proves the behavioural
claims of the specification against it.

Modelling choices, in order of appearance:
* A data-frame cell is a float; the engine distinguishes genuine numbers from
  NaN (`PVal`). Rational numbers stand in for floats: every claim is about
  exact field arithmetic, never about rounding.
* The frame is already projected to the one analyzed column, so a row is a
  (timestamp, cell) pair. Timestamps are kept at day resolution (a proleptic
  Gregorian day count, day 0 = 0000-03-01): the engine observes timestamps
  only through `.dt.date`, daily bins, weekly `W-MON` bins whose pandas edges
  fall on day boundaries, and day-level `strftime` labels, so finer resolution
  is unobservable.
* Fallible Python code returns `Except`: the bare `raise ValueError` for an
  unknown timeframe and the `IndexError` that `.iloc[-1]` raises on an empty
  frame are the two reachable exceptions.
-/

/-- A pandas float cell: NaN or a (rational) number. -/
inductive PVal where
  | nan : PVal
  | num : ℚ → PVal
deriving DecidableEq

/-- Embeds `pd.isna` on a cell. -/
def PVal.isna : PVal → Bool
  | .nan => true
  | .num _ => false

/-- Float subtraction; NaN propagates, as for IEEE floats. -/
def PVal.sub : PVal → PVal → PVal
  | .num a, .num b => .num (a - b)
  | _, _ => .nan

/-- Float division; NaN propagates. The engine only divides by a value it has
checked to be non-NaN and nonzero, so the zero-denominator case of `ℚ` is
never reached. -/
def PVal.div : PVal → PVal → PVal
  | .num a, .num b => .num (a / b)
  | _, _ => .nan

/-- Float multiplication; NaN propagates. -/
def PVal.mul : PVal → PVal → PVal
  | .num a, .num b => .num (a * b)
  | _, _ => .nan

/-- One row of the frame, projected to the analyzed column: a timestamp at day
resolution and the cell of the column. -/
structure Row where
  ts : Nat
  val : PVal
deriving DecidableEq

/-- The non-NaN entries of a column (the skipna view every pandas reduction
uses by default). -/
def numsOf (l : List PVal) : List ℚ :=
  l.filterMap fun v => match v with | .nan => none | .num q => some q

/-- Embeds `Series.min()` with the default skipna=True: NaN on an empty or
all-NaN column, otherwise the least non-NaN entry. -/
def pminList (l : List PVal) : PVal :=
  match numsOf l with
  | [] => .nan
  | q :: qs => .num (qs.foldl min q)

/-- Embeds `Series.max()` with the default skipna=True. -/
def pmaxList (l : List PVal) : PVal :=
  match numsOf l with
  | [] => .nan
  | q :: qs => .num (qs.foldl max q)

/-- Embeds `Series.mean()`: the sum of the non-NaN entries divided by their count;
NaN when there is none. -/
def pmeanList (l : List PVal) : PVal :=
  match numsOf l with
  | [] => .nan
  | q :: qs => .num ((q :: qs).sum / ((q :: qs).length : ℚ))

/-- Day count of a proleptic Gregorian date, anchored so that day 0 is
March 1 of year 0; every timestamp pandas can represent is then positive. -/
def daysFromCivil (y m d : Nat) : Nat :=
  let yAdj := if m ≤ 2 then y - 1 else y
  let era := yAdj / 400
  let yoe := yAdj % 400
  let mp := if m > 2 then m - 3 else m + 9
  let doy := (153 * mp + 2) / 5 + d - 1
  let doe := yoe * 365 + yoe / 4 - yoe / 100 + doy
  era * 146097 + doe

/-- Inverse of `daysFromCivil`: the (year, month, day) of a day count. -/
def civilYMD (z : Nat) : Nat × Nat × Nat :=
  let era := z / 146097
  let doe := z % 146097
  let yoe := (doe - doe / 1460 + doe / 36524 - doe / 146096) / 365
  let doy := doe - (365 * yoe + yoe / 4 - yoe / 100)
  let mp := (5 * doy + 2) / 153
  let d := doy - (153 * mp + 2) / 5 + 1
  let m := if mp < 10 then mp + 3 else mp - 9
  (if m ≤ 2 then era * 400 + yoe + 1 else era * 400 + yoe, m, d)

/-- Two-digit zero padding, as `strftime` does for `%d` and `%m`. -/
def pad2 (n : Nat) : String :=
  if n < 10 then "0" ++ toString n else toString n

/-- Four-digit zero padding, as `strftime` does for `%Y`. -/
def pad4 (n : Nat) : String :=
  if n < 10 then "000" ++ toString n
  else if n < 100 then "00" ++ toString n
  else if n < 1000 then "0" ++ toString n
  else toString n

/-- Embeds strftime with format %d/%m/%Y on a day count. -/
def fmtDMY (z : Nat) : String :=
  pad2 (civilYMD z).2.2 ++ "/" ++ pad2 (civilYMD z).2.1 ++ "/" ++ pad4 (civilYMD z).1

/-- Embeds strftime with format %d/%m on a day count. -/
def fmtDM (z : Nat) : String :=
  pad2 (civilYMD z).2.2 ++ "/" ++ pad2 (civilYMD z).2.1

/-- Insertion step of the sort below. -/
def insertByTs (r : Row) : List Row → List Row
  | [] => [r]
  | x :: xs => if r.ts ≤ x.ts then r :: x :: xs else x :: insertByTs r xs

/-- Embeds `data.sort_values` on the timestamp column. The
engine never observes the relative order of rows with equal timestamps (every
downstream computation is a filter plus an order-insensitive reduction), so
any comparison sort realizes it. -/
def sortByTs (data : List Row) : List Row :=
  data.foldr insertByTs []

/-- Embeds `frame.tail(n)`: the last `n` rows. -/
def pyTail (n : Nat) (xs : List Row) : List Row :=
  xs.drop (xs.length - n)

/-- Python negative slicing `xs.iloc[-a:-b]` for `1 ≤ b ≤ a`: the rows at
positions `[len - a, len - b)`, both endpoints clamping at 0 — which is what
truncated `Nat` subtraction gives. -/
def pySliceNeg (a b : Nat) (xs : List Row) : List Row :=
  (xs.take (xs.length - b)).drop (xs.length - a)

/-- Least timestamp of a frame with first row `r` and remaining rows `rs`. -/
def tsMin (r : Row) (rs : List Row) : Nat :=
  rs.foldl (fun a x => Nat.min a x.ts) r.ts

/-- Greatest timestamp of a frame with first row `r` and remaining rows `rs`. -/
def tsMax (r : Row) (rs : List Row) : Nat :=
  rs.foldl (fun a x => Nat.max a x.ts) r.ts

/-- Embeds `Series.min()` on the timestamp column of a bucket frame (only ever
applied to a nonempty frame; the 0 default is unreachable). -/
def tsMinList : List Row → Nat
  | [] => 0
  | r :: rs => tsMin r rs

/-- Embeds `Series.max()` on the timestamp column of a bucket frame. -/
def tsMaxList : List Row → Nat
  | [] => 0
  | r :: rs => tsMax r rs

/-- Embeds `data.resample(D, on=timestamp)[col].mean().reset_index()`:
one bucket per calendar day from the first to the last timestamp of the frame
(pandas emits every day of that closed span, including days holding no row),
labelled by the day, holding the skipna mean of the rows of that day — NaN
when the day has no row. Empty frame in, empty frame out. -/
def resampleD (data : List Row) : List Row :=
  match data with
  | [] => []
  | r :: rs =>
    let d0 := tsMin r rs
    let d1 := tsMax r rs
    (List.range (d1 - d0 + 1)).map fun i =>
      { ts := d0 + i,
        val := pmeanList ((data.filter fun x => x.ts == d0 + i).map Row.val) }

/-- The Monday on or after day `d` (day 0 = 0000-03-01 is a Wednesday, and
1970-01-01 = day 719468 is a Thursday, so Mondays are the days `≡ 5 [MOD 7]`).
pandas weekly bins are right-closed and right-labelled: `W-MON` puts a row in
the week ending on this Monday and labels the bucket with it. -/
def weekKeyOf (d : Nat) : Nat := d + (12 - d % 7) % 7

/-- Embeds `data.resample(W-MON, on=timestamp)[col].mean().reset_index()`:
one bucket per `W-MON` week from the week of the first timestamp to the week
of the last one (gap weeks included, with NaN mean), labelled by the Monday
that ends the week. -/
def resampleW (data : List Row) : List Row :=
  match data with
  | [] => []
  | r :: rs =>
    let k0 := weekKeyOf (tsMin r rs)
    let k1 := weekKeyOf (tsMax r rs)
    (List.range ((k1 - k0) / 7 + 1)).map fun i =>
      { ts := k0 + 7 * i,
        val := pmeanList ((data.filter fun x => weekKeyOf x.ts == k0 + 7 * i).map Row.val) }

/-- The exceptions the engine can raise: the explicit
`raise ValueError(...)` of `calculate_kpis` on an unknown timeframe, and the
`IndexError` that `.iloc[-1]` raises on an empty frame. -/
inductive KpiErr where
  | invalidTimeframe : KpiErr
  | indexError : KpiErr
deriving DecidableEq

/-- The KPI dict built by the three mode handlers. -/
structure KPIResult where
  min : PVal
  mean : PVal
  max : PVal
  min_delta : Option PVal
  min_delta_pct : Option PVal
  mean_delta : Option PVal
  mean_delta_pct : Option PVal
  max_delta : Option PVal
  max_delta_pct : Option PVal
  period_label : String
deriving DecidableEq

/-- Embeds `_calculate_variation(current_val, previous_val)`: both outputs are None
when the baseline is None, NaN or exactly zero; otherwise the absolute delta
and `(delta / previous) * 100`. -/
def calcVariation (currentVal : PVal) (previousVal : Option PVal) :
    Option PVal × Option PVal :=
  match previousVal with
  | none => (none, none)
  | some p =>
    if p.isna = true ∨ p = PVal.num 0 then (none, none)
    else
      let delta := currentVal.sub p
      (some delta, some ((delta.div p).mul (PVal.num 100)))

/-- Embeds `_calculate_daily_kpis(data, particle)`; `data` arrives sorted. The
comparison filter `r.ts + 1 == last.ts` is `date == last_date - timedelta(1)`:
for `last.ts = 0` both sides are empty, since day 0 has no predecessor in the
representation and no row can carry the predecessor date either. The
`len == 0` guard is kept although it is dead — the last row always lies in its
own day — because the source keeps it; the `.iloc[-1]` access before it is
what an empty frame actually reaches. -/
def calcDailyKpis (data : List Row) : Except KpiErr (Option KPIResult) :=
  match data.getLast? with
  | none => .error .indexError
  | some lastRow =>
    let lastDayData := data.filter fun r => r.ts == lastRow.ts
    if lastDayData.length == 0 then .ok none
    else
      let currentVals := lastDayData.map Row.val
      let prevDayData := data.filter fun r => r.ts + 1 == lastRow.ts
      let prevVals := prevDayData.map Row.val
      let mdp := calcVariation (pmeanList currentVals)
        (if prevDayData.length > 0 then some (pmeanList prevVals) else none)
      let ndp := calcVariation (pminList currentVals)
        (if prevDayData.length > 0 then some (pminList prevVals) else none)
      let xdp := calcVariation (pmaxList currentVals)
        (if prevDayData.length > 0 then some (pmaxList prevVals) else none)
      .ok (some
        { min := pminList currentVals
          mean := pmeanList currentVals
          max := pmaxList currentVals
          min_delta := ndp.1
          min_delta_pct := ndp.2
          mean_delta := mdp.1
          mean_delta_pct := mdp.2
          max_delta := xdp.1
          max_delta_pct := xdp.2
          period_label := fmtDMY lastRow.ts })

/-- Current window of the weekly mode:
the call `data_daily.tail(min(7, len(data_daily)))`. -/
def weeklyCurrentWindow (dataDaily : List Row) : List Row :=
  pyTail (min 7 dataDaily.length) dataDaily

/-- Comparison window of the weekly mode, the three-tier fallback:
`iloc[-14:-7]` when at least 14 daily buckets exist, else `iloc[-8:-1]` when
at least 8 exist, else an empty frame. -/
def weeklyCompWindow (dataDaily : List Row) : List Row :=
  if dataDaily.length ≥ 14 then pySliceNeg 14 7 dataDaily
  else if dataDaily.length ≥ 8 then pySliceNeg 8 1 dataDaily
  else []

/-- Embeds `_calculate_weekly_kpis(data, particle)`; `data` arrives sorted. -/
def calcWeeklyKpis (data : List Row) : Option KPIResult :=
  let dataDaily := resampleD data
  if dataDaily.length < 2 then none
  else
    let lastWeekData := weeklyCurrentWindow dataDaily
    let prevWeekData := weeklyCompWindow dataDaily
    let currentVals := lastWeekData.map Row.val
    let prevVals := prevWeekData.map Row.val
    let mdp := calcVariation (pmeanList currentVals)
      (if prevWeekData.length > 0 then some (pmeanList prevVals) else none)
    let ndp := calcVariation (pminList currentVals)
      (if prevWeekData.length > 0 then some (pminList prevVals) else none)
    let xdp := calcVariation (pmaxList currentVals)
      (if prevWeekData.length > 0 then some (pmaxList prevVals) else none)
    some
      { min := pminList currentVals
        mean := pmeanList currentVals
        max := pmaxList currentVals
        min_delta := ndp.1
        min_delta_pct := ndp.2
        mean_delta := mdp.1
        mean_delta_pct := mdp.2
        max_delta := xdp.1
        max_delta_pct := xdp.2
        period_label :=
          fmtDM (tsMinList lastWeekData) ++ " - " ++ fmtDM (tsMaxList lastWeekData) }

/-- Current window of the monthly mode:
the call `data_weekly.tail(min(4, len(data_weekly)))`. -/
def monthlyCurrentWindow (dataWeekly : List Row) : List Row :=
  pyTail (min 4 dataWeekly.length) dataWeekly

/-- Comparison window of the monthly mode: `iloc[-8:-4]` when at least 8
weekly buckets exist, else `iloc[-5:-1]` when at least 5 exist, else empty. -/
def monthlyCompWindow (dataWeekly : List Row) : List Row :=
  if dataWeekly.length ≥ 8 then pySliceNeg 8 4 dataWeekly
  else if dataWeekly.length ≥ 5 then pySliceNeg 5 1 dataWeekly
  else []

/-- Embeds `_calculate_monthly_kpis(data, particle)`; `data` arrives sorted. -/
def calcMonthlyKpis (data : List Row) : Option KPIResult :=
  let dataWeekly := resampleW data
  if dataWeekly.length < 2 then none
  else
    let lastMonthData := monthlyCurrentWindow dataWeekly
    let prevMonthData := monthlyCompWindow dataWeekly
    let currentVals := lastMonthData.map Row.val
    let prevVals := prevMonthData.map Row.val
    let mdp := calcVariation (pmeanList currentVals)
      (if prevMonthData.length > 0 then some (pmeanList prevVals) else none)
    let ndp := calcVariation (pminList currentVals)
      (if prevMonthData.length > 0 then some (pminList prevVals) else none)
    let xdp := calcVariation (pmaxList currentVals)
      (if prevMonthData.length > 0 then some (pmaxList prevVals) else none)
    some
      { min := pminList currentVals
        mean := pmeanList currentVals
        max := pmaxList currentVals
        min_delta := ndp.1
        min_delta_pct := ndp.2
        mean_delta := mdp.1
        mean_delta_pct := mdp.2
        max_delta := xdp.1
        max_delta_pct := xdp.2
        period_label :=
          fmtDM (tsMinList lastMonthData) ++ " - " ++ fmtDM (tsMaxList lastMonthData) }

/-- Embeds `calculate_kpis(data, particle, timeframe)` of `src/processor.py`:
sort
defensively, dispatch on the timeframe code, raise on anything outside
`{D, W, M}`. The dtype-normalization step is the identity here because rows
already carry day-resolution timestamps. -/
def calculateKpis (data : List Row) (timeframe : String) :
    Except KpiErr (Option KPIResult) :=
  let sorted := sortByTs data
  if timeframe = "D" then calcDailyKpis sorted
  else if timeframe = "W" then .ok (calcWeeklyKpis sorted)
  else if timeframe = "M" then .ok (calcMonthlyKpis sorted)
  else .error .invalidTimeframe

/-- The values of the current window each mode selects, as a function of the
raw series; lets window-level invariants be stated against the entry point. -/
def currentWindowVals (data : List Row) (timeframe : String) : List PVal :=
  let sorted := sortByTs data
  if timeframe = "D" then
    match sorted.getLast? with
    | none => []
    | some lastRow => (sorted.filter fun r => r.ts == lastRow.ts).map Row.val
  else if timeframe = "W" then (weeklyCurrentWindow (resampleD sorted)).map Row.val
  else if timeframe = "M" then (monthlyCurrentWindow (resampleW sorted)).map Row.val
  else []

/-!
## The duplicate engine of `streamlit_App/dashboard.py`

The dashboard ships its own copy of the whole KPI computation (its
`calculate_kpis`, `_calculate_daily_kpis`, `_calculate_weekly_kpis`,
`_calculate_monthly_kpis` and `_calculate_variation`, lines 115 to 315).
The five functions are translated here independently, window slices written
inline exactly as that file writes them, so that the two engines can be
compared extensionally.
-/

namespace Dashboard

/-- Embeds `_calculate_variation` of `streamlit_App/dashboard.py`. -/
def calcVariation (currentVal : PVal) (previousVal : Option PVal) :
    Option PVal × Option PVal :=
  match previousVal with
  | none => (none, none)
  | some p =>
    if p.isna = true ∨ p = PVal.num 0 then (none, none)
    else
      let delta := currentVal.sub p
      (some delta, some ((delta.div p).mul (PVal.num 100)))

/-- Embeds `_calculate_daily_kpis` of `streamlit_App/dashboard.py`. -/
def calcDailyKpis (data : List Row) : Except KpiErr (Option KPIResult) :=
  match data.getLast? with
  | none => .error .indexError
  | some lastRow =>
    let lastDayData := data.filter fun r => r.ts == lastRow.ts
    if lastDayData.length == 0 then .ok none
    else
      let currentVals := lastDayData.map Row.val
      let prevDayData := data.filter fun r => r.ts + 1 == lastRow.ts
      let prevVals := prevDayData.map Row.val
      let mdp := Dashboard.calcVariation (pmeanList currentVals)
        (if prevDayData.length > 0 then some (pmeanList prevVals) else none)
      let ndp := Dashboard.calcVariation (pminList currentVals)
        (if prevDayData.length > 0 then some (pminList prevVals) else none)
      let xdp := Dashboard.calcVariation (pmaxList currentVals)
        (if prevDayData.length > 0 then some (pmaxList prevVals) else none)
      .ok (some
        { min := pminList currentVals
          mean := pmeanList currentVals
          max := pmaxList currentVals
          min_delta := ndp.1
          min_delta_pct := ndp.2
          mean_delta := mdp.1
          mean_delta_pct := mdp.2
          max_delta := xdp.1
          max_delta_pct := xdp.2
          period_label := fmtDMY lastRow.ts })

/-- Embeds `_calculate_weekly_kpis` of `streamlit_App/dashboard.py`. -/
def calcWeeklyKpis (data : List Row) : Option KPIResult :=
  let dataDaily := resampleD data
  if dataDaily.length < 2 then none
  else
    let lastWeekData := pyTail (min 7 dataDaily.length) dataDaily
    let prevWeekData :=
      if dataDaily.length ≥ 14 then pySliceNeg 14 7 dataDaily
      else if dataDaily.length ≥ 8 then pySliceNeg 8 1 dataDaily
      else []
    let currentVals := lastWeekData.map Row.val
    let prevVals := prevWeekData.map Row.val
    let mdp := Dashboard.calcVariation (pmeanList currentVals)
      (if prevWeekData.length > 0 then some (pmeanList prevVals) else none)
    let ndp := Dashboard.calcVariation (pminList currentVals)
      (if prevWeekData.length > 0 then some (pminList prevVals) else none)
    let xdp := Dashboard.calcVariation (pmaxList currentVals)
      (if prevWeekData.length > 0 then some (pmaxList prevVals) else none)
    some
      { min := pminList currentVals
        mean := pmeanList currentVals
        max := pmaxList currentVals
        min_delta := ndp.1
        min_delta_pct := ndp.2
        mean_delta := mdp.1
        mean_delta_pct := mdp.2
        max_delta := xdp.1
        max_delta_pct := xdp.2
        period_label :=
          fmtDM (tsMinList lastWeekData) ++ " - " ++ fmtDM (tsMaxList lastWeekData) }

/-- Embeds `_calculate_monthly_kpis` of `streamlit_App/dashboard.py`. -/
def calcMonthlyKpis (data : List Row) : Option KPIResult :=
  let dataWeekly := resampleW data
  if dataWeekly.length < 2 then none
  else
    let lastMonthData := pyTail (min 4 dataWeekly.length) dataWeekly
    let prevMonthData :=
      if dataWeekly.length ≥ 8 then pySliceNeg 8 4 dataWeekly
      else if dataWeekly.length ≥ 5 then pySliceNeg 5 1 dataWeekly
      else []
    let currentVals := lastMonthData.map Row.val
    let prevVals := prevMonthData.map Row.val
    let mdp := Dashboard.calcVariation (pmeanList currentVals)
      (if prevMonthData.length > 0 then some (pmeanList prevVals) else none)
    let ndp := Dashboard.calcVariation (pminList currentVals)
      (if prevMonthData.length > 0 then some (pminList prevVals) else none)
    let xdp := Dashboard.calcVariation (pmaxList currentVals)
      (if prevMonthData.length > 0 then some (pmaxList prevVals) else none)
    some
      { min := pminList currentVals
        mean := pmeanList currentVals
        max := pmaxList currentVals
        min_delta := ndp.1
        min_delta_pct := ndp.2
        mean_delta := mdp.1
        mean_delta_pct := mdp.2
        max_delta := xdp.1
        max_delta_pct := xdp.2
        period_label :=
          fmtDM (tsMinList lastMonthData) ++ " - " ++ fmtDM (tsMaxList lastMonthData) }

/-- Embeds `calculate_kpis` of `streamlit_App/dashboard.py`. -/
def calculateKpis (data : List Row) (timeframe : String) :
    Except KpiErr (Option KPIResult) :=
  let sorted := sortByTs data
  if timeframe = "D" then Dashboard.calcDailyKpis sorted
  else if timeframe = "W" then .ok (Dashboard.calcWeeklyKpis sorted)
  else if timeframe = "M" then .ok (Dashboard.calcMonthlyKpis sorted)
  else .error .invalidTimeframe

end Dashboard

/-!
## Result shapes and concrete scenario series

The three `*Result` definitions name the record each mode handler builds once
its guards have passed; the shape lemmas below prove the handlers equal to
them, so claims can read off individual fields. The concrete series realize
the scenarios of the specification (day 719468 is 1970-01-01, a Thursday;
day 719472 is a Monday).
-/

/-- The record the daily handler returns when the frame has a last row. -/
def dailyResult (data : List Row) (lastRow : Row) : KPIResult :=
  let currentVals := (data.filter fun r => r.ts == lastRow.ts).map Row.val
  let prevDayData := data.filter fun r => r.ts + 1 == lastRow.ts
  let prevVals := prevDayData.map Row.val
  let mdp := calcVariation (pmeanList currentVals)
    (if prevDayData.length > 0 then some (pmeanList prevVals) else none)
  let ndp := calcVariation (pminList currentVals)
    (if prevDayData.length > 0 then some (pminList prevVals) else none)
  let xdp := calcVariation (pmaxList currentVals)
    (if prevDayData.length > 0 then some (pmaxList prevVals) else none)
  { min := pminList currentVals
    mean := pmeanList currentVals
    max := pmaxList currentVals
    min_delta := ndp.1
    min_delta_pct := ndp.2
    mean_delta := mdp.1
    mean_delta_pct := mdp.2
    max_delta := xdp.1
    max_delta_pct := xdp.2
    period_label := fmtDMY lastRow.ts }

/-- The record the weekly handler returns once at least 2 daily buckets
exist, as a function of the daily bucket frame. -/
def weeklyResult (dataDaily : List Row) : KPIResult :=
  let lastWeekData := weeklyCurrentWindow dataDaily
  let prevWeekData := weeklyCompWindow dataDaily
  let currentVals := lastWeekData.map Row.val
  let prevVals := prevWeekData.map Row.val
  let mdp := calcVariation (pmeanList currentVals)
    (if prevWeekData.length > 0 then some (pmeanList prevVals) else none)
  let ndp := calcVariation (pminList currentVals)
    (if prevWeekData.length > 0 then some (pminList prevVals) else none)
  let xdp := calcVariation (pmaxList currentVals)
    (if prevWeekData.length > 0 then some (pmaxList prevVals) else none)
  { min := pminList currentVals
    mean := pmeanList currentVals
    max := pmaxList currentVals
    min_delta := ndp.1
    min_delta_pct := ndp.2
    mean_delta := mdp.1
    mean_delta_pct := mdp.2
    max_delta := xdp.1
    max_delta_pct := xdp.2
    period_label :=
      fmtDM (tsMinList lastWeekData) ++ " - " ++ fmtDM (tsMaxList lastWeekData) }

/-- The record the monthly handler returns once at least 2 weekly buckets
exist, as a function of the weekly bucket frame. -/
def monthlyResult (dataWeekly : List Row) : KPIResult :=
  let lastMonthData := monthlyCurrentWindow dataWeekly
  let prevMonthData := monthlyCompWindow dataWeekly
  let currentVals := lastMonthData.map Row.val
  let prevVals := prevMonthData.map Row.val
  let mdp := calcVariation (pmeanList currentVals)
    (if prevMonthData.length > 0 then some (pmeanList prevVals) else none)
  let ndp := calcVariation (pminList currentVals)
    (if prevMonthData.length > 0 then some (pminList prevVals) else none)
  let xdp := calcVariation (pmaxList currentVals)
    (if prevMonthData.length > 0 then some (pmaxList prevVals) else none)
  { min := pminList currentVals
    mean := pmeanList currentVals
    max := pmaxList currentVals
    min_delta := ndp.1
    min_delta_pct := ndp.2
    mean_delta := mdp.1
    mean_delta_pct := mdp.2
    max_delta := xdp.1
    max_delta_pct := xdp.2
    period_label :=
      fmtDM (tsMinList lastMonthData) ++ " - " ++ fmtDM (tsMaxList lastMonthData) }

/-- Scenario A of the specification: one day of data, five points with values
1 to 5, on 2025-12-01. -/
def scenarioA : List Row :=
  [⟨daysFromCivil 2025 12 1, .num 1⟩, ⟨daysFromCivil 2025 12 1, .num 2⟩,
   ⟨daysFromCivil 2025 12 1, .num 3⟩, ⟨daysFromCivil 2025 12 1, .num 4⟩,
   ⟨daysFromCivil 2025 12 1, .num 5⟩]

/-- Scenario B of the specification: a series spanning exactly 10 calendar
days, so the weekly mode sees 10 daily buckets. -/
def scenarioB : List Row :=
  [⟨719468, .num 1⟩, ⟨719477, .num 5⟩]

/-- Scenario C of the specification: a series spanning exactly 8 weeks of the
Monday-ending binning (day 719472 and day 719521 are both Mondays), so the
monthly mode sees 8 weekly buckets. -/
def scenarioC : List Row :=
  [⟨719472, .num 1⟩, ⟨719521, .num 5⟩]

/-- A series with rows on two days separated by an empty day, exercising the
gap behaviour of the daily aggregation. -/
def gapSeries : List Row :=
  [⟨719468, .num 1⟩, ⟨719470, .num 5⟩]

/-- A series whose previous-day window has minimum exactly 0 but nonzero mean
and maximum, exercising the per-statistic nulling of the delta pairs. -/
def zeroMinBaseline : List Row :=
  [⟨719468, .num 0⟩, ⟨719468, .num 2⟩, ⟨719469, .num 3⟩, ⟨719469, .num 4⟩]

/-!
## Helper lemmas

General facts about the embedded pandas primitives, shared by the claim
theorems: the None-parity of the variation helper, length and indexing of the
Python slicing operations, order bounds for the skipna statistics, and shape
lemmas evaluating each mode handler once its guards are settled.
-/

theorem numsOf_cons_nan (l : List PVal) : numsOf (PVal.nan :: l) = numsOf l := rfl

theorem numsOf_cons_num (q : ℚ) (l : List PVal) :
    numsOf (PVal.num q :: l) = q :: numsOf l := rfl

theorem variation_fst_none_iff (c : PVal) (p : Option PVal) :
    (calcVariation c p).1 = none ↔ (calcVariation c p).2 = none := by
  cases p with
  | none => simp [calcVariation]
  | some v =>
    by_cases h : v.isna = true ∨ v = PVal.num 0 <;> simp [calcVariation, h]

theorem sortByTs_cons (x : Row) (xs : List Row) :
    sortByTs (x :: xs) = insertByTs x (sortByTs xs) := rfl

theorem length_insertByTs (r : Row) (l : List Row) :
    (insertByTs r l).length = l.length + 1 := by
  induction l with
  | nil => rfl
  | cons x xs ih => by_cases h : r.ts ≤ x.ts <;> simp [insertByTs, h, ih]

theorem length_sortByTs (data : List Row) :
    (sortByTs data).length = data.length := by
  induction data with
  | nil => rfl
  | cons x xs ih => rw [sortByTs_cons, length_insertByTs, ih, List.length_cons]

theorem sortByTs_ne_nil (data : List Row) (h : data ≠ []) : sortByTs data ≠ [] := by
  intro hcon
  apply h
  have hlen := length_sortByTs data
  rw [hcon] at hlen
  exact List.length_eq_zero.mp hlen.symm

theorem pyTail_length (n : Nat) (xs : List Row) :
    (pyTail n xs).length = min n xs.length := by
  simp [pyTail]
  omega

theorem pyTail_getElem (n : Nat) (xs : List Row) (i : Nat) :
    (pyTail n xs)[i]? = xs[(xs.length - n) + i]? := by
  simp [pyTail, List.getElem?_drop]

theorem pySliceNeg_length (a b : Nat) (xs : List Row) (h1 : b ≤ a)
    (h2 : a ≤ xs.length) : (pySliceNeg a b xs).length = a - b := by
  simp [pySliceNeg]
  omega

theorem pySliceNeg_getElem (a b : Nat) (xs : List Row) (i : Nat) (h1 : b ≤ a)
    (h2 : a ≤ xs.length) (h3 : i < a - b) :
    (pySliceNeg a b xs)[i]? = xs[(xs.length - a) + i]? := by
  simp only [pySliceNeg, List.getElem?_drop, List.getElem?_take]
  rw [if_pos (by omega)]

theorem foldl_min_le_init (qs : List ℚ) : ∀ q : ℚ, List.foldl min q qs ≤ q := by
  induction qs with
  | nil => intro q; exact le_refl q
  | cons y ys ih =>
    intro q
    calc List.foldl min (min q y) ys ≤ min q y := ih (min q y)
    _ ≤ q := min_le_left q y

theorem foldl_min_le_of_mem (qs : List ℚ) :
    ∀ q x : ℚ, x ∈ q :: qs → List.foldl min q qs ≤ x := by
  induction qs with
  | nil =>
    intro q x hx
    rw [List.mem_singleton] at hx
    simp [hx]
  | cons y ys ih =>
    intro q x hx
    rcases List.mem_cons.mp hx with h | hx2
    · calc List.foldl min q (y :: ys) = List.foldl min (min q y) ys := rfl
      _ ≤ min q y := foldl_min_le_init ys (min q y)
      _ ≤ q := min_le_left q y
      _ = x := h.symm
    · rcases List.mem_cons.mp hx2 with h | h
      · calc List.foldl min q (y :: ys) ≤ min q y := foldl_min_le_init ys (min q y)
        _ ≤ y := min_le_right q y
        _ = x := h.symm
      · exact ih (min q y) x (List.mem_cons.mpr (Or.inr h))

theorem le_foldl_max_init (qs : List ℚ) : ∀ q : ℚ, q ≤ List.foldl max q qs := by
  induction qs with
  | nil => intro q; exact le_refl q
  | cons y ys ih =>
    intro q
    calc q ≤ max q y := le_max_left q y
    _ ≤ List.foldl max (max q y) ys := ih (max q y)

theorem le_foldl_max_of_mem (qs : List ℚ) :
    ∀ q x : ℚ, x ∈ q :: qs → x ≤ List.foldl max q qs := by
  induction qs with
  | nil =>
    intro q x hx
    rw [List.mem_singleton] at hx
    simp [hx]
  | cons y ys ih =>
    intro q x hx
    rcases List.mem_cons.mp hx with h | hx2
    · calc x = q := h
      _ ≤ max q y := le_max_left q y
      _ ≤ List.foldl max (max q y) ys := le_foldl_max_init ys (max q y)
    · rcases List.mem_cons.mp hx2 with h | h
      · calc x = y := h
        _ ≤ max q y := le_max_right q y
        _ ≤ List.foldl max (max q y) ys := le_foldl_max_init ys (max q y)
      · exact ih (max q y) x (List.mem_cons.mpr (Or.inr h))

theorem min_le_mean_le_max (q : ℚ) (qs : List ℚ) :
    List.foldl min q qs ≤ (q :: qs).sum / (((q :: qs).length : ℕ) : ℚ) ∧
    (q :: qs).sum / (((q :: qs).length : ℕ) : ℚ) ≤ List.foldl max q qs := by
  have hlen : (0 : ℚ) < (((q :: qs).length : ℕ) : ℚ) := by
    have : 0 < (q :: qs).length := List.length_pos.mpr (List.cons_ne_nil q qs)
    exact_mod_cast this
  constructor
  · rw [le_div_iff₀ hlen]
    have hsum := List.card_nsmul_le_sum (q :: qs) (List.foldl min q qs)
      (fun x hx => foldl_min_le_of_mem qs q x hx)
    rw [nsmul_eq_mul] at hsum
    calc List.foldl min q qs * (((q :: qs).length : ℕ) : ℚ)
        = (((q :: qs).length : ℕ) : ℚ) * List.foldl min q qs := mul_comm _ _
    _ ≤ (q :: qs).sum := hsum
  · rw [div_le_iff₀ hlen]
    have hsum := List.sum_le_card_nsmul (q :: qs) (List.foldl max q qs)
      (fun x hx => le_foldl_max_of_mem qs q x hx)
    rw [nsmul_eq_mul] at hsum
    calc (q :: qs).sum ≤ (((q :: qs).length : ℕ) : ℚ) * List.foldl max q qs := hsum
    _ = List.foldl max q qs * (((q :: qs).length : ℕ) : ℚ) := mul_comm _ _

theorem statsBounds (l : List PVal) (hne : l ≠ [])
    (hnn : ∀ v ∈ l, v.isna = false) :
    ∃ a b c, pminList l = .num a ∧ pmeanList l = .num b ∧ pmaxList l = .num c ∧
      a ≤ b ∧ b ≤ c := by
  obtain ⟨v, vs, rfl⟩ := List.exists_cons_of_ne_nil hne
  cases v with
  | nan =>
    have := hnn PVal.nan (List.mem_cons_self _ _)
    simp [PVal.isna] at this
  | num q =>
    refine ⟨(numsOf vs).foldl min q,
      (q :: numsOf vs).sum / (((q :: numsOf vs).length : ℕ) : ℚ),
      (numsOf vs).foldl max q, ?_, ?_, ?_, ?_, ?_⟩
    · simp [pminList, numsOf_cons_num]
    · simp [pmeanList, numsOf_cons_num]
    · simp [pmaxList, numsOf_cons_num]
    · exact (min_le_mean_le_max q (numsOf vs)).1
    · exact (min_le_mean_le_max q (numsOf vs)).2

theorem mem_of_getLast? {l : List Row} {a : Row} (h : l.getLast? = some a) :
    a ∈ l := by
  obtain ⟨hne, rfl⟩ := List.mem_getLast?_eq_getLast (by rw [Option.mem_def, h])
  exact List.getLast_mem hne

theorem filter_lastDay_ne_nil {l : List Row} {a : Row} (h : l.getLast? = some a) :
    (l.filter fun r => r.ts == a.ts) ≠ [] := by
  apply List.ne_nil_of_mem (a := a)
  exact List.mem_filter.mpr ⟨mem_of_getLast? h, by simp⟩

theorem calcDailyKpis_eq (data : List Row) (lastRow : Row)
    (h : data.getLast? = some lastRow) :
    calcDailyKpis data = .ok (some (dailyResult data lastRow)) := by
  have hne := filter_lastDay_ne_nil h
  simp only [calcDailyKpis, h]
  rw [if_neg (by simpa using hne)]
  rfl

theorem calcWeeklyKpis_eq (data : List Row) (h : 2 ≤ (resampleD data).length) :
    calcWeeklyKpis data = some (weeklyResult (resampleD data)) := by
  simp only [calcWeeklyKpis]
  rw [if_neg (by omega)]
  rfl

theorem calcWeeklyKpis_none (data : List Row) (h : (resampleD data).length < 2) :
    calcWeeklyKpis data = none := by
  simp only [calcWeeklyKpis]
  rw [if_pos h]

theorem calcMonthlyKpis_eq (data : List Row) (h : 2 ≤ (resampleW data).length) :
    calcMonthlyKpis data = some (monthlyResult (resampleW data)) := by
  simp only [calcMonthlyKpis]
  rw [if_neg (by omega)]
  rfl

theorem calcMonthlyKpis_none (data : List Row) (h : (resampleW data).length < 2) :
    calcMonthlyKpis data = none := by
  simp only [calcMonthlyKpis]
  rw [if_pos h]

theorem calcDailyKpis_ne_invalid (data : List Row) :
    calcDailyKpis data ≠ .error .invalidTimeframe := by
  unfold calcDailyKpis
  split
  · simp
  · dsimp only
    split <;> simp

theorem calculateKpis_D (data : List Row) :
    calculateKpis data "D" = calcDailyKpis (sortByTs data) := rfl

theorem calculateKpis_W (data : List Row) :
    calculateKpis data "W" = .ok (calcWeeklyKpis (sortByTs data)) := rfl

theorem calculateKpis_M (data : List Row) :
    calculateKpis data "M" = .ok (calcMonthlyKpis (sortByTs data)) := rfl

/-!
## Claim theorems

One theorem per claim of the specification review, each preceded by the
claim it settles.
-/

/-- C3: for every current value and baseline, `_calculate_variation` returns
(None, None) when the baseline is absent, NaN or exactly zero, and otherwise
the pair (current - previous, 100 * (current - previous) / previous); in
particular variation(110, 100) = (10, 10.0) and
variation(90, 100) = (-10, -10.0). -/
theorem variation_rule_spec :
    (∀ x : ℚ, calcVariation (PVal.num x) none = (none, none) ∧
      calcVariation (PVal.num x) (some PVal.nan) = (none, none) ∧
      calcVariation (PVal.num x) (some (PVal.num 0)) = (none, none)) ∧
    (∀ x p : ℚ, p ≠ 0 → calcVariation (PVal.num x) (some (PVal.num p)) =
      (some (PVal.num (x - p)), some (PVal.num (100 * (x - p) / p)))) ∧
    calcVariation (PVal.num 110) (some (PVal.num 100)) =
      (some (PVal.num 10), some (PVal.num 10)) ∧
    calcVariation (PVal.num 90) (some (PVal.num 100)) =
      (some (PVal.num (-10)), some (PVal.num (-10))) := by
  refine ⟨?_, ?_, ?_, ?_⟩
  · intro x
    refine ⟨rfl, rfl, ?_⟩
    simp [calcVariation, PVal.isna]
  · intro x p hp
    simp [calcVariation, PVal.isna, hp, PVal.sub, PVal.div, PVal.mul]
    ring
  · norm_num [calcVariation, PVal.isna, PVal.sub, PVal.div, PVal.mul]
  · norm_num [calcVariation, PVal.isna, PVal.sub, PVal.div, PVal.mul]

/-- Witness for the variation rule, instantiated at current 110 and nonzero
baseline 100. -/
theorem variation_rule_spec_witness :
    (100 : ℚ) ≠ 0 ∧ calcVariation (PVal.num 110) (some (PVal.num 100)) =
      (some (PVal.num (110 - 100)), some (PVal.num (100 * (110 - 100) / 100))) :=
  ⟨by norm_num, variation_rule_spec.2.1 110 100 (by norm_num)⟩

/-- C4: for every series, `calculate_kpis` raises its ValueError (the
invalid-granularity condition) exactly when the timeframe code lies outside
the recognized set D, W, M. -/
theorem invalid_granularity_spec :
    ∀ (data : List Row) (tf : String),
      (tf ≠ "D" → tf ≠ "W" → tf ≠ "M" →
        calculateKpis data tf = .error .invalidTimeframe) ∧
      (calculateKpis data tf = .error .invalidTimeframe →
        tf ≠ "D" ∧ tf ≠ "W" ∧ tf ≠ "M") := by
  intro data tf
  constructor
  · intro h1 h2 h3
    simp [calculateKpis, h1, h2, h3]
  · intro h
    refine ⟨?_, ?_, ?_⟩ <;> intro heq <;> subst heq
    · rw [calculateKpis_D] at h
      exact calcDailyKpis_ne_invalid _ h
    · rw [calculateKpis_W] at h
      simp at h
    · rw [calculateKpis_M] at h
      simp at h

/-- Witness for the invalid-granularity rule at the code Q of Scenario D. -/
theorem invalid_granularity_spec_witness :
    calculateKpis [] "Q" = .error .invalidTimeframe :=
  (invalid_granularity_spec [] "Q").1 (by decide) (by decide) (by decide)

/-- C5 (behaviour at the failing input): on the empty series the daily mode
raises IndexError — the iloc[-1] access runs before the dead emptiness
guard — while the weekly and monthly modes return None. -/
theorem empty_series_behaviour :
    calculateKpis [] "D" = .error .indexError ∧
    calculateKpis [] "W" = .ok none ∧
    calculateKpis [] "M" = .ok none :=
  ⟨rfl, rfl, rfl⟩

/-- C8: the KPI engine duplicated in the dashboard is extensionally equal to
the one of the processor module: same series and timeframe, same verdict —
the same KPI record, the same None, or the same exception. -/
theorem duplicate_engines_agree :
    ∀ (data : List Row) (tf : String),
      Dashboard.calculateKpis data tf = calculateKpis data tf :=
  fun _ _ => rfl

/-- C1: in the weekly mode the series is first aggregated to N daily buckets
(None when N < 2); the current window is the last min(7, N) buckets and the
comparison window follows the three-tier fallback — buckets [N-14, N-7) when
N ≥ 14, buckets [N-8, N-1) when 8 ≤ N < 14, empty otherwise. -/
theorem weekly_window_selection :
    ∀ (data db : List Row), db = resampleD (sortByTs data) →
      (db.length < 2 → calculateKpis data "W" = .ok none) ∧
      (2 ≤ db.length →
        calculateKpis data "W" = .ok (some (weeklyResult db)) ∧
        (weeklyCurrentWindow db).length = min 7 db.length ∧
        (∀ i, i < min 7 db.length →
          (weeklyCurrentWindow db)[i]? = db[db.length - min 7 db.length + i]?)) ∧
      (14 ≤ db.length → (weeklyCompWindow db).length = 7 ∧
        ∀ i, i < 7 → (weeklyCompWindow db)[i]? = db[db.length - 14 + i]?) ∧
      (8 ≤ db.length → db.length < 14 → (weeklyCompWindow db).length = 7 ∧
        ∀ i, i < 7 → (weeklyCompWindow db)[i]? = db[db.length - 8 + i]?) ∧
      (db.length < 8 → weeklyCompWindow db = []) := by
  intro data db hdb
  subst hdb
  refine ⟨?_, ?_, ?_, ?_, ?_⟩
  · intro h
    rw [calculateKpis_W, calcWeeklyKpis_none _ h]
  · intro h
    refine ⟨?_, ?_, ?_⟩
    · rw [calculateKpis_W, calcWeeklyKpis_eq _ h]
    · simp only [weeklyCurrentWindow]
      rw [pyTail_length]
      omega
    · intro i hi
      simp only [weeklyCurrentWindow]
      rw [pyTail_getElem]
  · intro h
    simp only [weeklyCompWindow]
    rw [if_pos h]
    exact ⟨pySliceNeg_length 14 7 _ (by omega) h,
      fun i hi => pySliceNeg_getElem 14 7 _ i (by omega) h (by omega)⟩
  · intro h1 h2
    simp only [weeklyCompWindow]
    rw [if_neg (by omega), if_pos h1]
    exact ⟨pySliceNeg_length 8 1 _ (by omega) h1,
      fun i hi => pySliceNeg_getElem 8 1 _ i (by omega) h1 (by omega)⟩
  · intro h
    simp only [weeklyCompWindow]
    rw [if_neg (by omega), if_neg (by omega)]

/-- Witness for the weekly window selection: Scenario B yields N = 10 daily
buckets, landing in the middle tier, whose comparison window starts at
absolute bucket index 2 and holds 7 buckets. -/
theorem weekly_window_selection_witness :
    8 ≤ (resampleD (sortByTs scenarioB)).length ∧
    (resampleD (sortByTs scenarioB)).length < 14 ∧
    (weeklyCompWindow (resampleD (sortByTs scenarioB))).length = 7 ∧
    (weeklyCompWindow (resampleD (sortByTs scenarioB)))[0]? =
      (resampleD (sortByTs scenarioB))[2]? := by
  have hN : (resampleD (sortByTs scenarioB)).length = 10 := by decide
  have h := weekly_window_selection scenarioB (resampleD (sortByTs scenarioB)) rfl
  have h2 := h.2.2.2.1 (by omega) (by omega)
  refine ⟨by omega, by omega, h2.1, ?_⟩
  have h0 := h2.2 0 (by omega)
  rw [hN] at h0
  norm_num at h0
  exact h0

/-- C2: in the monthly mode the series is first aggregated to N weekly
buckets (None when N < 2); the current window is the last min(4, N) buckets
and the comparison window is buckets [N-8, N-4) when N ≥ 8 — disjoint from
and strictly preceding the current window — buckets [N-5, N-1) when
5 ≤ N < 8, empty otherwise. -/
theorem monthly_window_selection :
    ∀ (data dw : List Row), dw = resampleW (sortByTs data) →
      (dw.length < 2 → calculateKpis data "M" = .ok none) ∧
      (2 ≤ dw.length →
        calculateKpis data "M" = .ok (some (monthlyResult dw)) ∧
        (monthlyCurrentWindow dw).length = min 4 dw.length ∧
        (∀ i, i < min 4 dw.length →
          (monthlyCurrentWindow dw)[i]? = dw[dw.length - min 4 dw.length + i]?)) ∧
      (8 ≤ dw.length → (monthlyCompWindow dw).length = 4 ∧
        ∀ i, i < 4 → (monthlyCompWindow dw)[i]? = dw[dw.length - 8 + i]?) ∧
      (5 ≤ dw.length → dw.length < 8 → (monthlyCompWindow dw).length = 4 ∧
        ∀ i, i < 4 → (monthlyCompWindow dw)[i]? = dw[dw.length - 5 + i]?) ∧
      (dw.length < 5 → monthlyCompWindow dw = []) := by
  intro data dw hdw
  subst hdw
  refine ⟨?_, ?_, ?_, ?_, ?_⟩
  · intro h
    rw [calculateKpis_M, calcMonthlyKpis_none _ h]
  · intro h
    refine ⟨?_, ?_, ?_⟩
    · rw [calculateKpis_M, calcMonthlyKpis_eq _ h]
    · simp only [monthlyCurrentWindow]
      rw [pyTail_length]
      omega
    · intro i hi
      simp only [monthlyCurrentWindow]
      rw [pyTail_getElem]
  · intro h
    simp only [monthlyCompWindow]
    rw [if_pos h]
    exact ⟨pySliceNeg_length 8 4 _ (by omega) h,
      fun i hi => pySliceNeg_getElem 8 4 _ i (by omega) h (by omega)⟩
  · intro h1 h2
    simp only [monthlyCompWindow]
    rw [if_neg (by omega), if_pos h1]
    exact ⟨pySliceNeg_length 5 1 _ (by omega) h1,
      fun i hi => pySliceNeg_getElem 5 1 _ i (by omega) h1 (by omega)⟩
  · intro h
    simp only [monthlyCompWindow]
    rw [if_neg (by omega), if_neg (by omega)]

/-- Witness for the monthly window selection: Scenario C yields N = 8 weekly
buckets, so the comparison window is the 4-bucket block starting at absolute
index 0, strictly preceding the current window (indices 4 to 7). -/
theorem monthly_window_selection_witness :
    8 ≤ (resampleW (sortByTs scenarioC)).length ∧
    (monthlyCompWindow (resampleW (sortByTs scenarioC))).length = 4 ∧
    (monthlyCompWindow (resampleW (sortByTs scenarioC)))[0]? =
      (resampleW (sortByTs scenarioC))[0]? := by
  have hN : (resampleW (sortByTs scenarioC)).length = 8 := by decide
  have h := monthly_window_selection scenarioC (resampleW (sortByTs scenarioC)) rfl
  have h2 := h.2.2.1 (by omega)
  refine ⟨by omega, h2.1, ?_⟩
  have h0 := h2.2 0 (by omega)
  rw [hN] at h0
  norm_num at h0
  exact h0

/-- C7 counterexample: the claim that the aggregation emits no bucket for a
span holding zero rows fails on `gapSeries`, which has rows on days 719468
and 719470 only: the daily aggregation emits 3 buckets — one per day of the
closed span, including the row-less day 719469, whose bucket carries a NaN
mean — while only 2 distinct days contain a row. -/
theorem aggregator_emits_empty_buckets :
    (resampleD gapSeries).length = 3 ∧
    ((gapSeries.map Row.ts).dedup).length = 2 ∧
    (resampleD gapSeries)[1]? = some ⟨719469, PVal.nan⟩ := by
  refine ⟨by decide, by decide, by decide⟩

/-- C7 amended: the aggregation emits one bucket per period of the closed
span from the first to the last row, in chronological order — a period with
zero rows yields a bucket with NaN mean rather than being omitted — so the
output length is the number of periods spanned, not the number of non-empty
ones; empty input still yields empty output. -/
theorem aggregator_span_spec :
    resampleD [] = [] ∧
    resampleW [] = [] ∧
    (∀ (r : Row) (rs : List Row),
      (resampleD (r :: rs)).length = tsMax r rs - tsMin r rs + 1) ∧
    (∀ (r : Row) (rs : List Row) (i : Nat),
      (resampleD (r :: rs))[i]? =
        if i < tsMax r rs - tsMin r rs + 1 then
          some ⟨tsMin r rs + i,
            pmeanList (((r :: rs).filter fun x => x.ts == tsMin r rs + i).map Row.val)⟩
        else none) ∧
    (∀ (r : Row) (rs : List Row),
      (resampleW (r :: rs)).length =
        (weekKeyOf (tsMax r rs) - weekKeyOf (tsMin r rs)) / 7 + 1) ∧
    (∀ (r : Row) (rs : List Row) (i : Nat),
      (resampleW (r :: rs))[i]? =
        if i < (weekKeyOf (tsMax r rs) - weekKeyOf (tsMin r rs)) / 7 + 1 then
          some ⟨weekKeyOf (tsMin r rs) + 7 * i,
            pmeanList (((r :: rs).filter
              fun x => weekKeyOf x.ts == weekKeyOf (tsMin r rs) + 7 * i).map Row.val)⟩
        else none) := by
  refine ⟨rfl, rfl, ?_, ?_, ?_, ?_⟩
  · intro r rs
    simp [resampleD]
  · intro r rs i
    simp only [resampleD, List.getElem?_map, List.getElem?_range]
    by_cases h : i < tsMax r rs - tsMin r rs + 1
    · simp [h]
    · simp [h]
      omega
  · intro r rs
    simp [resampleW]
  · intro r rs i
    simp only [resampleW, List.getElem?_map, List.getElem?_range]
    by_cases h : i < (weekKeyOf (tsMax r rs) - weekKeyOf (tsMin r rs)) / 7 + 1
    · simp [h]
    · simp [h]
      omega

/-- C6: on every non-empty series the daily mode never raises and never
returns None; its current window is exactly the rows sharing the date of the
last row of the sorted series, its comparison window exactly the rows dated
one calendar day earlier, its label that date in day/month/year form; and on
Scenario A (one day, values 1..5) it returns min 1, mean 3, max 5, all six
delta fields None, and label 01/12/2025. -/
theorem daily_mode_total_spec :
    (∀ (data : List Row) (h : data ≠ []),
      calculateKpis data "D" =
        .ok (some (dailyResult (sortByTs data)
          ((sortByTs data).getLast (sortByTs_ne_nil data h)))) ∧
      ∀ lastRow : Row,
        dailyResult (sortByTs data) lastRow =
          { min := pminList
              (((sortByTs data).filter fun x => x.ts == lastRow.ts).map Row.val)
            mean := pmeanList
              (((sortByTs data).filter fun x => x.ts == lastRow.ts).map Row.val)
            max := pmaxList
              (((sortByTs data).filter fun x => x.ts == lastRow.ts).map Row.val)
            min_delta := (calcVariation
              (pminList (((sortByTs data).filter fun x => x.ts == lastRow.ts).map Row.val))
              (if ((sortByTs data).filter fun x => x.ts + 1 == lastRow.ts).length > 0 then
                some (pminList (((sortByTs data).filter fun x => x.ts + 1 == lastRow.ts).map Row.val))
              else none)).1
            min_delta_pct := (calcVariation
              (pminList (((sortByTs data).filter fun x => x.ts == lastRow.ts).map Row.val))
              (if ((sortByTs data).filter fun x => x.ts + 1 == lastRow.ts).length > 0 then
                some (pminList (((sortByTs data).filter fun x => x.ts + 1 == lastRow.ts).map Row.val))
              else none)).2
            mean_delta := (calcVariation
              (pmeanList (((sortByTs data).filter fun x => x.ts == lastRow.ts).map Row.val))
              (if ((sortByTs data).filter fun x => x.ts + 1 == lastRow.ts).length > 0 then
                some (pmeanList (((sortByTs data).filter fun x => x.ts + 1 == lastRow.ts).map Row.val))
              else none)).1
            mean_delta_pct := (calcVariation
              (pmeanList (((sortByTs data).filter fun x => x.ts == lastRow.ts).map Row.val))
              (if ((sortByTs data).filter fun x => x.ts + 1 == lastRow.ts).length > 0 then
                some (pmeanList (((sortByTs data).filter fun x => x.ts + 1 == lastRow.ts).map Row.val))
              else none)).2
            max_delta := (calcVariation
              (pmaxList (((sortByTs data).filter fun x => x.ts == lastRow.ts).map Row.val))
              (if ((sortByTs data).filter fun x => x.ts + 1 == lastRow.ts).length > 0 then
                some (pmaxList (((sortByTs data).filter fun x => x.ts + 1 == lastRow.ts).map Row.val))
              else none)).1
            max_delta_pct := (calcVariation
              (pmaxList (((sortByTs data).filter fun x => x.ts == lastRow.ts).map Row.val))
              (if ((sortByTs data).filter fun x => x.ts + 1 == lastRow.ts).length > 0 then
                some (pmaxList (((sortByTs data).filter fun x => x.ts + 1 == lastRow.ts).map Row.val))
              else none)).2
            period_label := fmtDMY lastRow.ts }) ∧
    calculateKpis scenarioA "D" = .ok (some
      { min := .num 1, mean := .num 3, max := .num 5,
        min_delta := none, min_delta_pct := none,
        mean_delta := none, mean_delta_pct := none,
        max_delta := none, max_delta_pct := none,
        period_label := "01/12/2025" }) := by
  constructor
  · intro data h
    have hs := sortByTs_ne_nil data h
    refine ⟨?_, fun lastRow => rfl⟩
    rw [calculateKpis_D, calcDailyKpis_eq _ _ (List.getLast?_eq_getLast_of_ne_nil hs)]
  · norm_num [calculateKpis, calcDailyKpis, scenarioA, sortByTs, insertByTs,
      daysFromCivil, pminList, pmaxList, pmeanList, numsOf, calcVariation, fmtDMY,
      civilYMD, pad2, pad4, List.filterMap_cons]
    decide

/-- Witness for the daily-mode totality at the nonempty Scenario A series. -/
theorem daily_mode_total_spec_witness :
    scenarioA ≠ [] ∧
    calculateKpis scenarioA "D" =
      .ok (some (dailyResult (sortByTs scenarioA)
        ((sortByTs scenarioA).getLast
          (sortByTs_ne_nil scenarioA (by decide))))) :=
  ⟨by decide, (daily_mode_total_spec.1 scenarioA (by decide)).1⟩

theorem calculateKpis_ok_some_cases (data : List Row) (tf : String) (r : KPIResult)
    (h : calculateKpis data tf = .ok (some r)) :
    (tf = "D" ∧ ∃ lastRow, (sortByTs data).getLast? = some lastRow ∧
      r = dailyResult (sortByTs data) lastRow) ∨
    (tf = "W" ∧ 2 ≤ (resampleD (sortByTs data)).length ∧
      r = weeklyResult (resampleD (sortByTs data))) ∨
    (tf = "M" ∧ 2 ≤ (resampleW (sortByTs data)).length ∧
      r = monthlyResult (resampleW (sortByTs data))) := by
  by_cases hD : tf = "D"
  · subst hD
    rw [calculateKpis_D] at h
    left
    cases hlast : (sortByTs data).getLast? with
    | none =>
      rw [calcDailyKpis, hlast] at h
      simp at h
    | some lastRow =>
      rw [calcDailyKpis_eq _ _ hlast] at h
      simp only [Except.ok.injEq, Option.some.injEq] at h
      exact ⟨rfl, lastRow, rfl, h.symm⟩
  · by_cases hW : tf = "W"
    · subst hW
      rw [calculateKpis_W] at h
      right; left
      simp only [Except.ok.injEq] at h
      by_cases hlen : (resampleD (sortByTs data)).length < 2
      · rw [calcWeeklyKpis_none _ hlen] at h
        simp at h
      · rw [calcWeeklyKpis_eq _ (by omega)] at h
        exact ⟨rfl, by omega, (Option.some.inj h).symm⟩
    · by_cases hM : tf = "M"
      · subst hM
        rw [calculateKpis_M] at h
        right; right
        simp only [Except.ok.injEq] at h
        by_cases hlen : (resampleW (sortByTs data)).length < 2
        · rw [calcMonthlyKpis_none _ hlen] at h
          simp at h
        · rw [calcMonthlyKpis_eq _ (by omega)] at h
          exact ⟨rfl, by omega, (Option.some.inj h).symm⟩
      · simp [calculateKpis, hD, hW, hM] at h

/-- C10: in every non-None KPI record each of the three delta pairs is None
on both components or on neither, and the pairs are decided independently:
on `zeroMinBaseline` — previous-day minimum exactly 0, mean 1, maximum 2 —
only the min pair is None while the mean pair is (5/2, 250) and the max pair
is (2, 100). -/
theorem delta_pairs_spec :
    (∀ (data : List Row) (tf : String) (r : KPIResult),
      calculateKpis data tf = .ok (some r) →
      ((r.min_delta = none ↔ r.min_delta_pct = none) ∧
       (r.mean_delta = none ↔ r.mean_delta_pct = none) ∧
       (r.max_delta = none ↔ r.max_delta_pct = none))) ∧
    calculateKpis zeroMinBaseline "D" = .ok (some
      { min := .num 3, mean := .num (7/2), max := .num 4,
        min_delta := none, min_delta_pct := none,
        mean_delta := some (.num (5/2)), mean_delta_pct := some (.num 250),
        max_delta := some (.num 2), max_delta_pct := some (.num 100),
        period_label := "02/01/1970" }) := by
  constructor
  · intro data tf r h
    rcases calculateKpis_ok_some_cases data tf r h with
      ⟨_, lastRow, _, rfl⟩ | ⟨_, _, rfl⟩ | ⟨_, _, rfl⟩ <;>
      exact ⟨variation_fst_none_iff _ _, variation_fst_none_iff _ _,
        variation_fst_none_iff _ _⟩
  · norm_num [calculateKpis, calcDailyKpis, zeroMinBaseline, sortByTs, insertByTs,
      pminList, pmaxList, pmeanList, numsOf, calcVariation, fmtDMY, civilYMD,
      pad2, pad4, PVal.isna, PVal.sub, PVal.div, PVal.mul, List.filterMap_cons]
    decide

/-- Witness for the delta-pair parity at the concrete record the daily mode
returns on `zeroMinBaseline`. -/
theorem delta_pairs_spec_witness :
    (({ min := .num 3, mean := .num (7/2), max := .num 4,
        min_delta := none, min_delta_pct := none,
        mean_delta := some (.num (5/2)), mean_delta_pct := some (.num 250),
        max_delta := some (.num 2), max_delta_pct := some (.num 100),
        period_label := "02/01/1970" } : KPIResult).min_delta = none ↔
      ({ min := .num 3, mean := .num (7/2), max := .num 4,
          min_delta := none, min_delta_pct := none,
          mean_delta := some (.num (5/2)), mean_delta_pct := some (.num 250),
          max_delta := some (.num 2), max_delta_pct := some (.num 100),
          period_label := "02/01/1970" } : KPIResult).min_delta_pct = none) :=
  (delta_pairs_spec.1 zeroMinBaseline "D" _ delta_pairs_spec.2).1

/-- C9: every non-None KPI record whose current window carries only real
(non-NaN) values has min ≤ mean ≤ max, the three statistics being reductions
of one and the same window. -/
theorem stats_ordered_spec :
    ∀ (data : List Row) (tf : String) (r : KPIResult),
      calculateKpis data tf = .ok (some r) →
      (∀ v ∈ currentWindowVals data tf, v.isna = false) →
      ∃ a b c, r.min = PVal.num a ∧ r.mean = PVal.num b ∧ r.max = PVal.num c ∧
        a ≤ b ∧ b ≤ c := by
  intro data tf r h hnn
  rcases calculateKpis_ok_some_cases data tf r h with
    ⟨htf, lastRow, hlast, rfl⟩ | ⟨htf, hlen, rfl⟩ | ⟨htf, hlen, rfl⟩
  · subst htf
    have hwv : currentWindowVals data "D" =
        ((sortByTs data).filter fun x => x.ts == lastRow.ts).map Row.val := by
      simp [currentWindowVals, hlast]
    rw [hwv] at hnn
    have hne : ((sortByTs data).filter fun x => x.ts == lastRow.ts).map Row.val ≠ [] := by
      intro hcon
      exact filter_lastDay_ne_nil hlast (List.map_eq_nil_iff.mp hcon)
    exact statsBounds _ hne hnn
  · subst htf
    have hwv : currentWindowVals data "W" =
        (weeklyCurrentWindow (resampleD (sortByTs data))).map Row.val := by
      simp [currentWindowVals]
    rw [hwv] at hnn
    have hpos : 0 < (weeklyCurrentWindow (resampleD (sortByTs data))).length := by
      simp only [weeklyCurrentWindow]
      rw [pyTail_length]
      omega
    have hne : (weeklyCurrentWindow (resampleD (sortByTs data))).map Row.val ≠ [] := by
      intro hcon
      rw [List.map_eq_nil_iff] at hcon
      rw [hcon] at hpos
      simp at hpos
    exact statsBounds _ hne hnn
  · subst htf
    have hwv : currentWindowVals data "M" =
        (monthlyCurrentWindow (resampleW (sortByTs data))).map Row.val := by
      simp [currentWindowVals]
    rw [hwv] at hnn
    have hpos : 0 < (monthlyCurrentWindow (resampleW (sortByTs data))).length := by
      simp only [monthlyCurrentWindow]
      rw [pyTail_length]
      omega
    have hne : (monthlyCurrentWindow (resampleW (sortByTs data))).map Row.val ≠ [] := by
      intro hcon
      rw [List.map_eq_nil_iff] at hcon
      rw [hcon] at hpos
      simp at hpos
    exact statsBounds _ hne hnn

/-- Witness for the statistics ordering at the daily record of
`zeroMinBaseline`, whose current window is the two real values 3 and 4. -/
theorem stats_ordered_spec_witness :
    ∃ a b c,
      (dailyResult (sortByTs zeroMinBaseline) ⟨719469, PVal.num 4⟩).min = PVal.num a ∧
      (dailyResult (sortByTs zeroMinBaseline) ⟨719469, PVal.num 4⟩).mean = PVal.num b ∧
      (dailyResult (sortByTs zeroMinBaseline) ⟨719469, PVal.num 4⟩).max = PVal.num c ∧
      a ≤ b ∧ b ≤ c :=
  stats_ordered_spec zeroMinBaseline "D" _
    (by rw [calculateKpis_D,
      calcDailyKpis_eq (sortByTs zeroMinBaseline) ⟨719469, PVal.num 4⟩ (by decide)])
    (by decide)
